import Mathlib

/-!
# Verification of the polyaxon streaming gateway (`streams/api.py`)

Shallow embedding of the real-time log / resource-metric streaming gateway:
the four websocket endpoints (`job_resources`, `experiment_resources`,
`job_logs`, `experiment_logs`), their shared resolution helpers
(`_get_project`, `_get_experiment`, `_get_job`, `_get_running_experiment`),
the per-cycle delivery loops, the process-wide registry tables, and the
server start/stop listeners.

Connections (websockets) are modelled as `Nat` identifiers; membership sets
(`consumer.ws` / `ws_manager.ws`) as duplicate-free `List Nat`; the registry
dictionaries (`app.job_logs_consumers`, ...) as association lists
`List (String × Nat)` mapping a uuid key to a consumer/manager instance id.
External collaborators (permission oracle, broker, Redis cache, job status)
are inputs to each cycle.
-/

namespace Streams

/-- `SOCKET_SLEEP = 2` (api.py line 28): the per-cycle delay in seconds. -/
def SOCKET_SLEEP : Nat := 2

/-- `MAX_RETRIES = 7` (api.py line 29): empty-drain threshold of the log loops. -/
def MAX_RETRIES : Nat := 7

/-- `RESOURCES_CHECK = 7` (api.py line 30): cycle-count threshold of the resource loops. -/
def RESOURCES_CHECK : Nat := 7

/-- `CHECK_DELAY = 5` (api.py line 31): amount subtracted from the counter after a
liveness check that found the job/experiment still live. -/
def CHECK_DELAY : Nat := 5

/-- The sanic exception classes raised by the endpoints: `exceptions.NotFound`
and `exceptions.Forbidden`, each carrying the message string passed at the
raise site. -/
inductive Exc where
  | notFound (msg : String)
  | forbidden (msg : String)
  deriving Repr, DecidableEq

/-- The exception class alone (sanic maps each class to one HTTP status:
`NotFound` ↦ 404, `Forbidden` ↦ 403), disregarding the message string. -/
inductive ExcClass where
  | notFound
  | forbidden
  deriving Repr, DecidableEq

/-- Class of an exception value. -/
def Exc.excClass : Exc → ExcClass
  | .notFound _ => .notFound
  | .forbidden _ => .forbidden

/-- A row of `db.models.experiment_jobs.ExperimentJob` as used by the gateway:
primary key, `uuid.hex`, `role`, and the `is_running` status property. -/
structure ExperimentJob where
  id : Nat
  uuidHex : String
  role : String
  is_running : Bool
  deriving Repr, DecidableEq

/-- A row of `db.models.experiments.Experiment` as used by the gateway:
primary key, owning project, `uuid.hex`, status properties, and the related
`jobs` queryset. -/
structure Experiment where
  id : Nat
  projectId : Nat
  uuidHex : String
  is_running : Bool
  jobs : List ExperimentJob
  deriving Repr, DecidableEq

/-- A row of `db.models.projects.Project` as used by the gateway: primary key,
`name`, and the owner's `user.username`. -/
structure Project where
  id : Nat
  name : String
  username : String
  deriving Repr, DecidableEq

/-- The database plus the external permission oracle
(`libs.permissions.projects.has_project_permissions`, an out-of-scope
collaborator; the gateway only consumes its boolean answer for
`(request.app.user, project, 'GET')`). -/
structure Env where
  projects : List Project
  experiments : List Experiment
  hasProjectPermissions : String → Nat → Bool

/-- `_get_project` (api.py lines 36-40): `Project.objects.get(name=project_name,
user__username=username)`, raising `NotFound('Project was not found')` when absent. -/
def _get_project (env : Env) (username project_name : String) : Except Exc Project :=
  match env.projects.find? (fun p => p.name == project_name && p.username == username) with
  | some p => .ok p
  | none => .error (.notFound "Project was not found")

/-- `_get_experiment` (api.py lines 43-47): `Experiment.objects.get(project=project,
id=experiment_id)`, raising `NotFound('Experiment was not found')` on
`DoesNotExist` or `ValidationError`. -/
def _get_experiment (env : Env) (project : Project) (experiment_id : Nat) :
    Except Exc Experiment :=
  match env.experiments.find? (fun e => e.projectId == project.id && e.id == experiment_id) with
  | some e => .ok e
  | none => .error (.notFound "Experiment was not found")

/-- `_get_job` (api.py lines 50-63): fetches the `ExperimentJob` of the experiment;
an absent job raises `NotFound('Experiment was not found')` (the message in the
source), and a job that exists but is not running raises
`NotFound('Job was not running')`. -/
def _get_job (experiment : Experiment) (job_id : Nat) : Except Exc ExperimentJob :=
  match experiment.jobs.find? (fun j => j.id == job_id) with
  | none => .error (.notFound "Experiment was not found")
  | some job =>
    if !job.is_running then .error (.notFound "Job was not running")
    else .ok job

/-- `_get_running_experiment` (api.py lines 66-72): `_get_experiment`, then rejects a
non-running experiment with `NotFound('Experiment was not running')`. -/
def _get_running_experiment (env : Env) (project : Project) (experiment_id : Nat) :
    Except Exc Experiment :=
  match _get_experiment env project experiment_id with
  | .error e => .error e
  | .ok experiment =>
    if !experiment.is_running then .error (.notFound "Experiment was not running")
    else .ok experiment

/-! ## Registry tables and socket membership -/

/-- The `if key in table: ... else: table[key] = new` pattern shared by all four
endpoints (api.py lines 92-96, 153-157, 223-233, 297-305): attach to the
existing consumer/manager for the key, or create exactly one fresh instance and
store it. Returns the table after, the instance attached to, and whether a new
instance was created. -/
def registry_get_or_create (table : List (String × Nat)) (key : String) (fresh : Nat) :
    List (String × Nat) × Nat × Bool :=
  match table.find? (fun e => e.1 == key) with
  | some e => (table, e.2, false)
  | none => (table ++ [(key, fresh)], fresh, true)

/-- `table.pop(key, None)` on the registry dictionaries (api.py lines 103, 164). -/
def registry_release (table : List (String × Nat)) (key : String) : List (String × Nat) :=
  table.filter (fun e => !(e.1 == key))

/-- Modelled from the spec: `remove_sockets` of `SocketManager` / `Consumer`
(classes in `streams/socket_manager.py` / `streams/consumers.py`, not under
src/). Spec §4.1 BroadcastGroup: "`remove(conns: set)` deletes zero or more
connections (idempotent, no error if absent)". -/
def remove_sockets (ws : List Nat) (conns : List Nat) : List Nat :=
  ws.filter (fun w => !(conns.contains w))

/-- Modelled from the spec: `add_socket` of `SocketManager` / `Consumer`
(not under src/). Spec §4.1: "`add(conn)` inserts a connection (idempotent)". -/
def add_socket (ws : List Nat) (conn : Nat) : List Nat :=
  if ws.contains conn then ws else ws ++ [conn]

/-! ## Endpoint setup (resolution, permission check, audit, attach)

Each endpoint's body before its delivery loop, as a function from the
environment, the request parameters, the endpoint's registry table and a fresh
instance id to an explicit record of every effect the setup performed. A raised
exception unwinds before the statements after the raise site, so an error
result carries the untouched table and no recorded effects. -/

/-- Request parameters of a streaming connection: the authenticated
`request.app.user` and the path segments. -/
structure Req where
  user : String
  username : String
  project_name : String
  experiment_id : Nat
  job_id : Nat
  deriving Repr, DecidableEq

/-- Everything a setup run did: the exception it ended with (if any), the
auditor events recorded as (event-type, instance id, actor), whether the
RedisToStream monitoring mark for the key is set afterwards, the registry
table afterwards, whether a fresh consumer/manager was created, and the
instance whose group received this connection (if any). -/
structure SetupResult where
  error : Option Exc
  audits : List (String × Nat × String)
  monitor_marked : Bool
  table : List (String × Nat)
  consumer_created : Bool
  socket_added_to : Option Nat
  deriving Repr, DecidableEq

/-- A setup run that raised `e` with table `t`: nothing after the raise site ran. -/
def SetupResult.rejected (e : Exc) (t : List (String × Nat)) : SetupResult :=
  { error := some e, audits := [], monitor_marked := false, table := t,
    consumer_created := false, socket_added_to := none }

/-- `EXPERIMENT_JOB_RESOURCES_VIEWED` event type name. -/
def EXPERIMENT_JOB_RESOURCES_VIEWED : String := "experiment_job.resources_viewed"

/-- `EXPERIMENT_RESOURCES_VIEWED` event type name. -/
def EXPERIMENT_RESOURCES_VIEWED : String := "experiment.resources_viewed"

/-- `EXPERIMENT_JOB_LOGS_VIEWED` event type name. -/
def EXPERIMENT_JOB_LOGS_VIEWED : String := "experiment_job.logs_viewed"

/-- `EXPERIMENT_LOGS_VIEWED` event type name. -/
def EXPERIMENT_LOGS_VIEWED : String := "experiment.logs_viewed"

/-- Setup of `job_logs` (api.py lines 207-236): resolve project; evaluate
`has_project_permissions` — on failure the source merely constructs
`exceptions.Forbidden("You don't have access to this project")` without
raising it (line 210), so setup continues; resolve the running experiment and
running job; record the audit event; ensure Redis monitoring; get-or-create the
consumer; `consumer.add_socket(ws)`. -/
def job_logs_setup (env : Env) (req : Req) (table : List (String × Nat)) (fresh : Nat) :
    SetupResult :=
  match _get_project env req.username req.project_name with
  | .error e => .rejected e table
  | .ok project =>
    let _unraised : Option Exc :=
      if env.hasProjectPermissions req.user project.id then none
      else some (.forbidden "You don't have access to this project")
    match _get_running_experiment env project req.experiment_id with
    | .error e => .rejected e table
    | .ok experiment =>
      match _get_job experiment req.job_id with
      | .error e => .rejected e table
      | .ok job =>
        let goc := registry_get_or_create table job.uuidHex fresh
        { error := none,
          audits := [(EXPERIMENT_JOB_LOGS_VIEWED, job.id, req.user)],
          monitor_marked := true,
          table := goc.1,
          consumer_created := goc.2.2,
          socket_added_to := some goc.2.1 }

/-- Setup of `job_resources` (api.py lines 76-107): same resolution chain and
unraised `Forbidden` as `job_logs` (lines 78-79), then audit, Redis monitoring,
get-or-create of the `SocketManager`, `ws_manager.add_socket(ws)`. -/
def job_resources_setup (env : Env) (req : Req) (table : List (String × Nat)) (fresh : Nat) :
    SetupResult :=
  match _get_project env req.username req.project_name with
  | .error e => .rejected e table
  | .ok project =>
    let _unraised : Option Exc :=
      if env.hasProjectPermissions req.user project.id then none
      else some (.forbidden "You don't have access to this project")
    match _get_running_experiment env project req.experiment_id with
    | .error e => .rejected e table
    | .ok experiment =>
      match _get_job experiment req.job_id with
      | .error e => .rejected e table
      | .ok job =>
        let goc := registry_get_or_create table job.uuidHex fresh
        { error := none,
          audits := [(EXPERIMENT_JOB_RESOURCES_VIEWED, job.id, req.user)],
          monitor_marked := true,
          table := goc.1,
          consumer_created := goc.2.2,
          socket_added_to := some goc.2.1 }

/-- Setup of `experiment_logs` (api.py lines 282-308): resolve project; unraised
`Forbidden` on missing permission (lines 284-285); resolve the running
experiment; audit; Redis monitoring; get-or-create the consumer keyed by the
experiment uuid; `consumer.add_socket(ws)`. -/
def experiment_logs_setup (env : Env) (req : Req) (table : List (String × Nat)) (fresh : Nat) :
    SetupResult :=
  match _get_project env req.username req.project_name with
  | .error e => .rejected e table
  | .ok project =>
    let _unraised : Option Exc :=
      if env.hasProjectPermissions req.user project.id then none
      else some (.forbidden "You don't have access to this project")
    match _get_running_experiment env project req.experiment_id with
    | .error e => .rejected e table
    | .ok experiment =>
      let goc := registry_get_or_create table experiment.uuidHex fresh
      { error := none,
        audits := [(EXPERIMENT_LOGS_VIEWED, experiment.id, req.user)],
        monitor_marked := true,
        table := goc.1,
        consumer_created := goc.2.2,
        socket_added_to := some goc.2.1 }

/-- Setup of `experiment_resources` (api.py lines 139-173): resolve project;
unraised `Forbidden` on missing permission (lines 141-142); resolve the running
experiment; audit; Redis monitoring; get-or-create of the `SocketManager` keyed
by the experiment uuid; `ws_manager.add_socket(ws)`. -/
def experiment_resources_setup (env : Env) (req : Req) (table : List (String × Nat))
    (fresh : Nat) : SetupResult :=
  match _get_project env req.username req.project_name with
  | .error e => .rejected e table
  | .ok project =>
    let _unraised : Option Exc :=
      if env.hasProjectPermissions req.user project.id then none
      else some (.forbidden "You don't have access to this project")
    match _get_running_experiment env project req.experiment_id with
    | .error e => .rejected e table
    | .ok experiment =>
      let goc := registry_get_or_create table experiment.uuidHex fresh
      { error := none,
        audits := [(EXPERIMENT_RESOURCES_VIEWED, experiment.id, req.user)],
        monitor_marked := true,
        table := goc.1,
        consumer_created := goc.2.2,
        socket_added_to := some goc.2.1 }

/-! ## The log-streaming delivery loop (`job_logs` lines 237-278,
`experiment_logs` lines 309-351 — the two loop bodies are identical up to
renaming job→experiment, so one embedding serves both) -/

/-- Mutable state visible to one log-streaming cycle: the shared `consumer.ws`
membership, this session's `num_message_retries`, the Redis monitoring mark of
the key, whether the key is still in the consumers table, and whether
`consumer.stop()` has been called. -/
structure LogsState where
  ws : List Nat
  retries : Nat
  monitored : Bool
  inRegistry : Bool
  consumerStopped : Bool
  deriving Repr, DecidableEq

/-- External inputs of one log cycle: the messages `consumer.get_messages()`
yields, which connections a `send` succeeds to this cycle (`ConnectionClosed`
raised for the others), the `is_done` status a `refresh_from_db` would observe,
and this session's `ws._connection_lost` flag. -/
structure LogsInput where
  messages : List String
  alive : Nat → Bool
  is_done : Bool
  connectionLost : Bool

/-- The inner fan-out of one message (api.py lines 243-248): iterate over
`consumer.ws`, attempt `_ws.send(message)` on every member, and collect the
members whose send raised `ConnectionClosed` into `disconnected_ws`. Returns
(delivered members, disconnected members). -/
def send_message_pass (alive : Nat → Bool) : List Nat → List Nat × List Nat
  | [] => ([], [])
  | w :: rest =>
    let tail := send_message_pass alive rest
    if alive w then (w :: tail.1, tail.2) else (tail.1, w :: tail.2)

/-- The drain of one cycle (api.py lines 241-249): for each message set
`num_message_retries = 0`, fan it out to the current membership, then
`consumer.remove_sockets(disconnected_ws)`. Returns the membership after, the
retry counter after, and the per-message delivery log. -/
def drain_messages (alive : Nat → Bool) (retries : Nat) (ws : List Nat) :
    List String → List Nat × Nat × List (String × List Nat)
  | [] => (ws, retries, [])
  | msg :: rest =>
    let pass := send_message_pass alive ws
    let ws1 := remove_sockets ws pass.2
    let tail := drain_messages alive 0 ws1 rest
    (tail.1, tail.2.1, (msg, pass.1) :: tail.2.2)

/-- Result of one log-streaming cycle: the state after, whether the session
returned (`should_quite`), and which connections each drained message reached. -/
structure LogsCycleResult where
  state : LogsState
  quit : Bool
  deliveries : List (String × List Nat)
  deriving Repr, DecidableEq

/-- One iteration of the log-streaming `while True` body for the session owning
connection `self` (api.py lines 239-278): increment `num_message_retries`, drain
and fan out all available messages (resetting the counter per message), run the
liveness check when the counter exceeds `MAX_RETRIES` (clear `consumer.ws` if
the job is done, else subtract `CHECK_DELAY`), remove this connection and set
`should_quite` when `ws._connection_lost`, and when `consumer.ws` is empty
remove the Redis monitoring mark and set `should_quite` — the registry pop and
`consumer.stop()` at lines 269-272 / 342-345 are commented out in the source,
so `inRegistry` and `consumerStopped` are left unchanged. -/
def logs_stream_cycle (self : Nat) (s : LogsState) (inp : LogsInput) : LogsCycleResult :=
  let dr := drain_messages inp.alive (s.retries + 1) s.ws inp.messages
  let ws1 := dr.1
  let retries1 := dr.2.1
  let ws2 :=
    if MAX_RETRIES < retries1 then (if inp.is_done then [] else ws1) else ws1
  let retries2 :=
    if MAX_RETRIES < retries1 then (if inp.is_done then retries1 else retries1 - CHECK_DELAY)
    else retries1
  let ws3 := if inp.connectionLost then remove_sockets ws2 [self] else ws2
  let monitored1 := if ws3.isEmpty then false else s.monitored
  let quit2 := if ws3.isEmpty then true else inp.connectionLost
  { state := { ws := ws3, retries := retries2, monitored := monitored1,
               inRegistry := s.inRegistry, consumerStopped := s.consumerStopped },
    quit := quit2,
    deliveries := dr.2.2 }

/-! ## The resource-streaming delivery loop (`job_resources` lines 108-135,
`experiment_resources` lines 174-203 — identical loop bodies once the fetch
result is taken as an input, so one embedding serves both) -/

/-- Mutable state visible to one resource-streaming cycle: the shared
`ws_manager.ws` membership, this session's `should_check` counter, the Redis
monitoring mark, and whether the key is still in the managers table. -/
structure ResState where
  ws : List Nat
  should_check : Nat
  monitored : Bool
  inRegistry : Bool
  deriving Repr, DecidableEq

/-- External inputs of one resource cycle: the fetched snapshot (`none` models
an empty/absent cache answer, which is falsy in `if resources:`), whether the
send to this session's own connection succeeds, the `is_done` status a refresh
would observe, and this session's `ws._connection_lost` flag. -/
structure ResInput where
  resources : Option String
  aliveSelf : Bool
  is_done : Bool
  connectionLost : Bool
  deriving Repr

/-- Result of one resource-streaming cycle: the state after, whether the
session returned, and the connections this cycle's send delivered the snapshot
to (the source sends only to `ws`, this session's own connection). -/
structure ResCycleResult where
  state : ResState
  quit : Bool
  delivered : List Nat
  deriving Repr, DecidableEq

/-- `handle_job_disconnected_ws` / `handle_experiment_disconnected_ws`
(api.py lines 98-105, 159-166): remove this connection from the manager, and if
the manager's membership is now empty, remove the Redis monitoring mark and pop
the registry entry. -/
def handle_disconnected_ws (self : Nat) (s : ResState) : ResState :=
  let ws1 := remove_sockets s.ws [self]
  if ws1.isEmpty then
    { ws := ws1, should_check := s.should_check, monitored := false, inRegistry := false }
  else
    { s with ws := ws1 }

/-- One iteration of the resource-streaming `while True` body for the session
owning connection `self` (api.py lines 109-135): fetch the snapshot, increment
`should_check` unconditionally, run the status check when the counter exceeds
`RESOURCES_CHECK` (clear the whole membership and return if the job/experiment
is done, else subtract `CHECK_DELAY`), send the snapshot — when present — to
this session's own connection only (returning via the disconnect handler if the
send raises `ConnectionClosed`), and return via the disconnect handler when
`ws._connection_lost`. -/
def resources_stream_cycle (self : Nat) (s : ResState) (inp : ResInput) : ResCycleResult :=
  let check0 := s.should_check + 1
  if RESOURCES_CHECK < check0 ∧ inp.is_done then
    let cleared : ResState := { s with ws := [], should_check := check0 }
    { state := handle_disconnected_ws self cleared, quit := true, delivered := [] }
  else
    let check1 := if RESOURCES_CHECK < check0 then check0 - CHECK_DELAY else check0
    let s1 : ResState := { s with should_check := check1 }
    match inp.resources with
    | some _ =>
      if inp.aliveSelf then
        if inp.connectionLost then
          { state := handle_disconnected_ws self s1, quit := true, delivered := [self] }
        else
          { state := s1, quit := false, delivered := [self] }
      else
        { state := handle_disconnected_ws self s1, quit := true, delivered := [] }
    | none =>
      if inp.connectionLost then
        { state := handle_disconnected_ws self s1, quit := true, delivered := [] }
      else
        { state := s1, quit := false, delivered := [] }

/-! ## The member-job list of `experiment_resources` -/

/-- The job-list resolution of `experiment_resources` (api.py lines 168-172),
run once before the delivery loop: each member job of the experiment becomes a
pair of its `uuid.hex` and the name `'{role}.{id}'`. -/
def resolve_jobs (jobs : List ExperimentJob) : List (String × String) :=
  jobs.map (fun j => (j.uuidHex, j.role ++ "." ++ toString j.id))

/-- The `experiment_resources` delivery loop (api.py lines 175-203) run on a
finite schedule of cycle inputs, recording for every executed cycle the job
list handed to `RedisToStream.get_latest_experiment_resources` — always the
`jobs` local bound before the loop. Returns the per-cycle query log and the
final state; stops early when a cycle returns. -/
def experiment_resources_loop (self : Nat) (jobs : List (String × String)) (s : ResState) :
    List ResInput → List (List (String × String)) × ResState
  | [] => ([], s)
  | inp :: rest =>
    let r := resources_stream_cycle self s inp
    if r.quit then ([jobs], r.state)
    else
      let tail := experiment_resources_loop self jobs r.state rest
      (jobs :: tail.1, tail.2)

/-- One `experiment_resources` session after setup: `dbJobs n` is the member-job
set stored in the database while cycle `n` runs (what a re-resolution during
that cycle would return); the source resolves the list exactly once, before the
loop (api.py lines 168-172), from the state at attach time (`dbJobs 0`). -/
def experiment_resources_session (self : Nat) (dbJobs : Nat → List ExperimentJob)
    (s0 : ResState) (inputs : List ResInput) : List (List (String × String)) × ResState :=
  let jobs := resolve_jobs (dbJobs 0)
  experiment_resources_loop self jobs s0 inputs

/-! ## Registry event sequences -/

/-- The registry operations a session can perform on one of the four tables:
attach-or-create on connect (api.py lines 92-96, 153-157, 223-233, 297-305) and
release of an emptied key (lines 103, 164). -/
inductive RegistryEvent where
  | connect (key : String) (fresh : Nat)
  | release (key : String)
  deriving Repr, DecidableEq

/-- Effect of one registry event on a table. -/
def registry_step (table : List (String × Nat)) : RegistryEvent → List (String × Nat)
  | .connect key fresh => (registry_get_or_create table key fresh).1
  | .release key => registry_release table key

/-- The table reached from the empty table (the state `notify_server_started`
installs) by a sequence of registry events. -/
def run_registry (evs : List RegistryEvent) : List (String × Nat) :=
  evs.foldl registry_step []

/-! ## Server start / stop listeners -/

/-- The process-wide state held on the sanic `app` object: the four registry
tables installed by `notify_server_started` (api.py lines 388-393), the
attribute `experiment_resources_ws_manger` — the misspelled name assigned at
line 399, absent until then — and the accumulated list of consumer instances
whose `stop()` was called. -/
structure AppState where
  job_resources_ws_mangers : List (String × Nat)
  experiment_resources_ws_mangers : List (String × Nat)
  experiment_resources_ws_manger : Option (List (String × Nat))
  job_logs_consumers : List (String × Nat)
  experiment_logs_consumers : List (String × Nat)
  stopped : List Nat
  deriving Repr, DecidableEq

/-- `notify_server_started` (api.py lines 388-393): installs the four empty
registry tables. -/
def notify_server_started : AppState :=
  { job_resources_ws_mangers := [],
    experiment_resources_ws_mangers := [],
    experiment_resources_ws_manger := none,
    job_logs_consumers := [],
    experiment_logs_consumers := [],
    stopped := [] }

/-- `notify_server_stopped` (api.py lines 396-409): resets
`app.job_resources_ws_mangers` to `{}`; assigns `{}` to
`app.experiment_resources_ws_manger` — the misspelled attribute (line 399), so
`experiment_resources_ws_mangers` itself is left untouched; then pops every key
of `job_logs_consumers` and of `experiment_logs_consumers` and calls `stop()`
on each popped consumer. -/
def notify_server_stopped (app : AppState) : AppState :=
  { app with
    job_resources_ws_mangers := [],
    experiment_resources_ws_manger := some [],
    job_logs_consumers := [],
    experiment_logs_consumers := [],
    stopped := app.stopped ++ app.job_logs_consumers.map Prod.snd
               ++ app.experiment_logs_consumers.map Prod.snd }

/-! ## Finite runs of the resource loop -/

/-- A resource-streaming session's loop run on a finite schedule of cycle
inputs: returns the state reached and whether the loop returned before the
schedule was exhausted. -/
def run_resources_cycles (self : Nat) (s : ResState) : List ResInput → ResState × Bool
  | [] => (s, false)
  | inp :: rest =>
    let r := resources_stream_cycle self s inp
    if r.quit then (r.state, true) else run_resources_cycles self r.state rest

/-! ## Concrete scenario instances -/

/-- Running job id 2 (uuid `job2`, role `master`). -/
def job2 : ExperimentJob :=
  { id := 2, uuidHex := "job2", role := "master", is_running := true }

/-- Stopped job id 3 (uuid `job3`, role `worker`). -/
def job3 : ExperimentJob :=
  { id := 3, uuidHex := "job3", role := "worker", is_running := false }

/-- Running experiment id 10 (uuid `exp10`) of project 1, holding `job2` and
`job3`. -/
def exp10 : Experiment :=
  { id := 10, projectId := 1, uuidHex := "exp10", is_running := true,
    jobs := [job2, job3] }

/-- A database with project `proj` (id 1) owned by `alice`, holding `exp10`;
the permission oracle denies every request. -/
def envNoPerm : Env :=
  { projects := [{ id := 1, name := "proj", username := "alice" }],
    experiments := [exp10],
    hasProjectPermissions := fun _ _ => false }

/-- The same database with the permission oracle granting every request. -/
def envPerm : Env :=
  { envNoPerm with hasProjectPermissions := fun _ _ => true }

/-- Viewer `eve` requesting the streams of job 2 of experiment 10 of
`alice/proj`. -/
def reqJob2 : Req :=
  { user := "eve", username := "alice", project_name := "proj",
    experiment_id := 10, job_id := 2 }

/-- A resource-cycle input whose cache fetch returned a non-empty snapshot, the
send succeeds, and the job is done when a status check reads the database. -/
def resInputData : ResInput :=
  { resources := some "snapshot", aliveSelf := true, is_done := true,
    connectionLost := false }

/-- A resource-cycle input with an empty cache answer and a healthy, still
connected viewer of a live experiment. -/
def resInputIdle : ResInput :=
  { resources := none, aliveSelf := true, is_done := false,
    connectionLost := false }

/-- A database timeline for `experiment_resources`: while the session attaches
(cycle 0) the experiment's member jobs are `[job2]`; from cycle 1 on, job 3 has
been added as a running worker. -/
def dbJobsGrow : Nat → List ExperimentJob :=
  fun n => if n = 0 then [job2] else [job2, { job3 with is_running := true }]

/-! ## Helper lemmas -/

/-- The fan-out pass delivers to exactly the members whose send succeeds and
collects exactly the members whose send raises. -/
theorem send_message_pass_eq (alive : Nat → Bool) (ws : List Nat) :
    send_message_pass alive ws = (ws.filter alive, ws.filter (fun c => !(alive c))) := by
  induction ws with
  | nil => rfl
  | cons w rest ih =>
    cases h : alive w <;> simp [send_message_pass, List.filter_cons, h, ih]

/-- Removing the collected disconnected members after the pass leaves exactly
the members whose send succeeded. -/
theorem remove_sockets_disconnected (alive : Nat → Bool) (ws : List Nat) :
    remove_sockets ws (send_message_pass alive ws).2 = ws.filter alive := by
  rw [send_message_pass_eq]
  unfold remove_sockets
  refine List.filter_congr ?_
  intro w hw
  by_cases h : alive w = true
  · have hnot : w ∉ ws.filter (fun c => !(alive c)) := by simp [List.mem_filter, h]
    have hc : (ws.filter (fun c => !(alive c))).contains w = false := by
      cases hcc : (ws.filter (fun c => !(alive c))).contains w
      · rfl
      · exact absurd (List.elem_iff.mp hcc) hnot
    simp [hc, h]
  · have hmem : w ∈ ws.filter (fun c => !(alive c)) := by
      simp [List.mem_filter, hw]
      simpa using h
    have hc : (ws.filter (fun c => !(alive c))).contains w = true := List.elem_iff.mpr hmem
    have ha : alive w = false := by simpa using h
    simp [hc, ha]
    exact hw

/-- The retry counter coming out of a drain: untouched by an empty drain, reset
to zero by any drained message. -/
theorem drain_messages_retries (alive : Nat → Bool) :
    ∀ (msgs : List String) (r : Nat) (ws : List Nat),
      (drain_messages alive r ws msgs).2.1 = if msgs.isEmpty then r else 0 := by
  intro msgs
  induction msgs with
  | nil => intro r ws; rfl
  | cons m rest ih =>
    intro r ws
    simp only [drain_messages, List.isEmpty_cons]
    rw [ih]
    cases rest <;> simp

/-! ## Claims -/

/-- C7: during one log fan-out pass (api.py lines 241-249 / 313-321), a send
failure (`ConnectionClosed`) on one member connection does not prevent delivery
of that message to every other connection in the group; all failed connections
are collected and removed from the group only after the pass over the
membership completes, so the group afterwards holds exactly the members whose
send succeeded. -/
theorem C7_fanout_failure_isolated (ws : List Nat) (alive : Nat → Bool) :
    (∀ c, c ∈ ws → alive c = true → c ∈ (send_message_pass alive ws).1) ∧
    (∀ c, c ∈ ws → alive c = false → c ∈ (send_message_pass alive ws).2) ∧
    remove_sockets ws (send_message_pass alive ws).2 = ws.filter alive := by
  refine ⟨?_, ?_, remove_sockets_disconnected alive ws⟩
  · intro c hc ha
    rw [send_message_pass_eq]
    simp [List.mem_filter, hc, ha]
  · intro c hc ha
    rw [send_message_pass_eq]
    simp [List.mem_filter, hc, ha]

/-- Witness for C7: in the group `[1, 2, 3]` where only the send to `2` fails,
`3` — visited after the failure — still receives the message, `2` is collected
as disconnected, and the group afterwards is `[1, 3]`. -/
theorem C7_fanout_failure_isolated_witness :
    3 ∈ (send_message_pass (fun c => decide (c ≠ 2)) [1, 2, 3]).1 ∧
    2 ∈ (send_message_pass (fun c => decide (c ≠ 2)) [1, 2, 3]).2 ∧
    remove_sockets [1, 2, 3] (send_message_pass (fun c => decide (c ≠ 2)) [1, 2, 3]).2
      = [1, 3] :=
  ⟨(C7_fanout_failure_isolated [1, 2, 3] (fun c => decide (c ≠ 2))).1 3 (by decide) (by decide),
   (C7_fanout_failure_isolated [1, 2, 3] (fun c => decide (c ≠ 2))).2.1 2 (by decide) (by decide),
   ((C7_fanout_failure_isolated [1, 2, 3] (fun c => decide (c ≠ 2))).2.2).trans (by decide)⟩

/-- C5: in the log-streaming loop (api.py lines 239-258 / 311-331), a cycle
whose drain yields zero messages increments the retry counter, any drained
message resets it to zero; when the counter exceeds the threshold
`MAX_RETRIES = 7` the job's status is re-read: if the job is terminal the whole
group is force-closed (membership cleared, session quits), otherwise the
counter is decremented by `CHECK_DELAY = 5` rather than reset. -/
theorem C5_log_retry_policy (self : Nat) (s : LogsState) (inp : LogsInput) :
    (MAX_RETRIES = 7 ∧ CHECK_DELAY = 5) ∧
    (inp.messages = [] → s.retries + 1 ≤ MAX_RETRIES →
      (logs_stream_cycle self s inp).state.retries = s.retries + 1) ∧
    (inp.messages ≠ [] → (logs_stream_cycle self s inp).state.retries = 0) ∧
    (inp.messages = [] → MAX_RETRIES < s.retries + 1 → inp.is_done = true →
      (logs_stream_cycle self s inp).state.ws = [] ∧
      (logs_stream_cycle self s inp).quit = true) ∧
    (inp.messages = [] → MAX_RETRIES < s.retries + 1 → inp.is_done = false →
      (logs_stream_cycle self s inp).state.retries = s.retries + 1 - CHECK_DELAY) := by
  refine ⟨⟨rfl, rfl⟩, ?_, ?_, ?_, ?_⟩
  · intro hm hle
    have hnot : ¬ MAX_RETRIES < s.retries + 1 := by omega
    simp [logs_stream_cycle, hm, drain_messages, hnot]
  · intro hm
    have h0 : (drain_messages inp.alive (s.retries + 1) s.ws inp.messages).2.1 = 0 := by
      rw [drain_messages_retries]
      cases hmm : inp.messages with
      | nil => exact absurd hmm hm
      | cons a b => simp
    have hnot : ¬ MAX_RETRIES < 0 := by omega
    simp [logs_stream_cycle, h0, hnot]
  · intro hm hgt hdone
    simp [logs_stream_cycle, hm, drain_messages, hgt, hdone, remove_sockets]
  · intro hm hgt hdone
    simp [logs_stream_cycle, hm, drain_messages, hgt, hdone]

/-- Witness for C5: a session with counter 7 whose next drain is empty crosses
the threshold; the job is still live, so the counter becomes 8 - 5 = 3. -/
theorem C5_log_retry_policy_witness :
    (logs_stream_cycle 1
        { ws := [1], retries := 7, monitored := true, inRegistry := true,
          consumerStopped := false }
        { messages := [], alive := fun _ => true, is_done := false,
          connectionLost := false }).state.retries = 3 :=
  ((C5_log_retry_policy 1
      { ws := [1], retries := 7, monitored := true, inRegistry := true,
        consumerStopped := false }
      { messages := [], alive := fun _ => true, is_done := false,
        connectionLost := false }).2.2.2.2 rfl (by decide) rfl).trans (by decide)

/-- C1: the permission check never rejects. The source only constructs
`exceptions.Forbidden("You don't have access to this project")` without
raising it (api.py lines 78-79, 141-142, 209-210, 284-285), so a viewer
without GET permission on the project (here: oracle denies everything) still
completes setup on each of the four endpoints: no error, the audit event is
recorded, the consumer/manager is created/attached and the connection joins
its group. -/
theorem C1_forbidden_never_raised :
    envNoPerm.hasProjectPermissions "eve" 1 = false ∧
    (job_logs_setup envNoPerm reqJob2 [] 100).error = none ∧
    (job_logs_setup envNoPerm reqJob2 [] 100).audits
      = [(EXPERIMENT_JOB_LOGS_VIEWED, 2, "eve")] ∧
    (job_logs_setup envNoPerm reqJob2 [] 100).table = [("job2", 100)] ∧
    (job_logs_setup envNoPerm reqJob2 [] 100).socket_added_to = some 100 ∧
    (job_resources_setup envNoPerm reqJob2 [] 100).error = none ∧
    (job_resources_setup envNoPerm reqJob2 [] 100).audits
      = [(EXPERIMENT_JOB_RESOURCES_VIEWED, 2, "eve")] ∧
    (job_resources_setup envNoPerm reqJob2 [] 100).socket_added_to = some 100 ∧
    (experiment_logs_setup envNoPerm reqJob2 [] 100).error = none ∧
    (experiment_logs_setup envNoPerm reqJob2 [] 100).audits
      = [(EXPERIMENT_LOGS_VIEWED, 10, "eve")] ∧
    (experiment_logs_setup envNoPerm reqJob2 [] 100).socket_added_to = some 100 ∧
    (experiment_resources_setup envNoPerm reqJob2 [] 100).error = none ∧
    (experiment_resources_setup envNoPerm reqJob2 [] 100).audits
      = [(EXPERIMENT_RESOURCES_VIEWED, 10, "eve")] ∧
    (experiment_resources_setup envNoPerm reqJob2 [] 100).socket_added_to = some 100 :=
  ⟨rfl, rfl, rfl, rfl, rfl, rfl, rfl, rfl, rfl, rfl, rfl, rfl, rfl, rfl⟩

/-- C9: at shutdown (`notify_server_stopped`, api.py lines 396-409) the
`experiment_resources_ws_mangers` table is NOT cleared: line 399 assigns `{}`
to the misspelled attribute `experiment_resources_ws_manger`, leaving the real
table untouched. The other three tables are cleared and the log consumers are
stopped, as the listener intends for all four. -/
theorem C9_shutdown_leaves_experiment_resources_table :
    (notify_server_stopped
        { notify_server_started with
          job_resources_ws_mangers := [("job2", 9)],
          experiment_resources_ws_mangers := [("exp10", 42)],
          job_logs_consumers := [("job2", 5)],
          experiment_logs_consumers := [("exp10", 6)] })
      = { job_resources_ws_mangers := [],
          experiment_resources_ws_mangers := [("exp10", 42)],
          experiment_resources_ws_manger := some [],
          job_logs_consumers := [],
          experiment_logs_consumers := [],
          stopped := [5, 6] } := rfl

/-- C2 counterexample: a log session whose own disconnect empties the group.
In that very cycle the session quits with `consumer.ws` empty, yet the key is
still in the consumers table (`inRegistry = true`) and `consumer.stop()` was
never called (`consumerStopped = false`) — the removal code at api.py lines
269-272 / 342-345 is commented out; only the Redis monitoring mark is removed. -/
theorem C2_counterexample :
    (logs_stream_cycle 7
        { ws := [7], retries := 0, monitored := true, inRegistry := true,
          consumerStopped := false }
        { messages := [], alive := fun _ => true, is_done := false,
          connectionLost := true })
      = { state := { ws := [], retries := 1, monitored := false, inRegistry := true,
                     consumerStopped := false },
          quit := true, deliveries := [] } := rfl

/-- C2 amended: when a log-streaming group becomes empty, the Redis
log-monitoring mark for the key is removed and the session quits within that
cycle, but the broker consumer is never stopped and its entry is never removed
from the process-wide consumers table: a log cycle leaves `inRegistry` and
`consumerStopped` unchanged no matter what happens. -/
theorem C2_empty_group_keeps_consumer (self : Nat) (s : LogsState) (inp : LogsInput) :
    ((logs_stream_cycle self s inp).state.inRegistry = s.inRegistry) ∧
    ((logs_stream_cycle self s inp).state.consumerStopped = s.consumerStopped) ∧
    ((logs_stream_cycle self s inp).state.ws = [] →
      (logs_stream_cycle self s inp).state.monitored = false ∧
      (logs_stream_cycle self s inp).quit = true) := by
  refine ⟨rfl, rfl, ?_⟩
  intro h
  simp only [logs_stream_cycle] at h ⊢
  rw [h]
  simp

/-- Witness for C2: the concrete emptying cycle, via the amended theorem. -/
theorem C2_empty_group_keeps_consumer_witness :
    (logs_stream_cycle 7
        { ws := [7], retries := 0, monitored := true, inRegistry := true,
          consumerStopped := false }
        { messages := [], alive := fun _ => true, is_done := false,
          connectionLost := true }).state.monitored = false ∧
    (logs_stream_cycle 7
        { ws := [7], retries := 0, monitored := true, inRegistry := true,
          consumerStopped := false }
        { messages := [], alive := fun _ => true, is_done := false,
          connectionLost := true }).quit = true :=
  (C2_empty_group_keeps_consumer 7
      { ws := [7], retries := 0, monitored := true, inRegistry := true,
        consumerStopped := false }
      { messages := [], alive := fun _ => true, is_done := false,
        connectionLost := true }).2.2 rfl

/-- C3 counterexample: in the metric loops the counter is incremented on every
cycle, before and regardless of the fetch outcome (api.py lines 110-111,
176-177). A cycle whose cache fetch returned a non-empty snapshot still counts:
with the counter at 3 and data present it becomes 4. A session that receives a
non-empty snapshot on every single cycle still trips the liveness check on
cycle 8 (counter 8 > `RESOURCES_CHECK`) and — the job being done — is
force-closed, which could never happen if data-bearing cycles did not count. -/
theorem C3_counterexample :
    (resources_stream_cycle 1
        { ws := [1], should_check := 3, monitored := true, inRegistry := true }
        resInputData).state.should_check = 4 ∧
    (run_resources_cycles 1
        { ws := [1], should_check := 0, monitored := true, inRegistry := true }
        (List.replicate 7 resInputData)).2 = false ∧
    (run_resources_cycles 1
        { ws := [1], should_check := 0, monitored := true, inRegistry := true }
        (List.replicate 8 resInputData)).2 = true ∧
    (run_resources_cycles 1
        { ws := [1], should_check := 0, monitored := true, inRegistry := true }
        (List.replicate 8 resInputData)).1.ws = [] :=
  ⟨rfl, rfl, rfl, rfl⟩

/-- C3 amended: the metric-loop counter `should_check` is incremented on every
cycle regardless of whether the fetch returned data; a non-empty snapshot
neither skips the increment nor resets the counter (unlike the log loops,
where any drained message resets `num_message_retries` to zero — see
`C5_log_retry_policy`): below threshold, every cycle — whatever its input —
raises the counter by exactly one. -/
theorem C3_resources_counter_counts_data_cycles (self : Nat) (s : ResState) (inp : ResInput) :
    s.should_check + 1 ≤ RESOURCES_CHECK →
    (resources_stream_cycle self s inp).state.should_check = s.should_check + 1 := by
  intro h
  have hnot : ¬ RESOURCES_CHECK < s.should_check + 1 := by omega
  simp only [resources_stream_cycle]
  rw [if_neg (fun hc => hnot hc.1)]
  simp only [if_neg hnot]
  cases hr : inp.resources <;>
    cases ha : inp.aliveSelf <;>
    cases hcl : inp.connectionLost <;>
    simp [handle_disconnected_ws] <;>
    split <;>
    rfl

/-- Witness for C3: a data-bearing cycle raises the counter from 3 to 4. -/
theorem C3_resources_counter_counts_data_cycles_witness :
    (resources_stream_cycle 1
        { ws := [1], should_check := 3, monitored := true, inRegistry := true }
        resInputData).state.should_check = 3 + 1 :=
  C3_resources_counter_counts_data_cycles 1
    { ws := [1], should_check := 3, monitored := true, inRegistry := true }
    resInputData (by decide)

/-- C4 counterexample: a metric cycle run by the session of connection 1 in the
group `[1, 2]` with a non-empty snapshot delivers it to `[1]` only — connection
2 stays in the group and receives nothing from this cycle (api.py line 126 /
193 sends to `ws`, the session's own connection, not to the group). -/
theorem C4_counterexample :
    (resources_stream_cycle 1
        { ws := [1, 2], should_check := 0, monitored := true, inRegistry := true }
        { resources := some "snapshot", aliveSelf := true, is_done := false,
          connectionLost := false })
      = { state := { ws := [1, 2], should_check := 1, monitored := true,
                     inRegistry := true },
          quit := false, delivered := [1] } := rfl

/-- C4 amended: in a metric cycle the fetched snapshot is sent only to the
session's own connection (every member receives data from its own session's
cycles, not from this one); a failed send (`ConnectionClosed`) removes only
this session's connection via the disconnect handler and ends only this
session, leaving the other members in the group. -/
theorem C4_resources_deliver_to_own_socket (self : Nat) (s : ResState) (inp : ResInput) :
    s.should_check + 1 ≤ RESOURCES_CHECK →
    inp.resources.isSome = true →
    ((inp.aliveSelf = true → (resources_stream_cycle self s inp).delivered = [self]) ∧
     (inp.aliveSelf = false →
       (resources_stream_cycle self s inp).delivered = [] ∧
       (resources_stream_cycle self s inp).quit = true ∧
       (resources_stream_cycle self s inp).state.ws = remove_sockets s.ws [self])) := by
  intro h hr
  have hnot : ¬ RESOURCES_CHECK < s.should_check + 1 := by omega
  simp only [resources_stream_cycle]
  rw [if_neg (fun hc => hnot hc.1)]
  cases hres : inp.resources with
  | none => rw [hres] at hr; exact absurd hr (by simp)
  | some v =>
    constructor
    · intro ha
      cases hcl : inp.connectionLost <;> simp [ha]
    · intro ha
      simp only [ha]
      simp [handle_disconnected_ws]
      split <;> rfl

/-- Witness for C4: the session of connection 1 in the group `[1, 2]`, snapshot
present and send succeeding, delivers to `[1]` only. -/
theorem C4_resources_deliver_to_own_socket_witness :
    (resources_stream_cycle 1
        { ws := [1, 2], should_check := 0, monitored := true, inRegistry := true }
        { resources := some "snapshot", aliveSelf := true, is_done := false,
          connectionLost := false }).delivered = [1] :=
  (C4_resources_deliver_to_own_socket 1
      { ws := [1, 2], should_check := 0, monitored := true, inRegistry := true }
      { resources := some "snapshot", aliveSelf := true, is_done := false,
        connectionLost := false } (by decide) rfl).1 rfl

/-- Get-or-create never pushes the per-key entry count above one. -/
theorem keyCount_get_or_create (table : List (String × Nat)) (key : String) (fresh : Nat)
    (key2 : String) (h : (table.filter (fun e => e.1 == key2)).length ≤ 1) :
    (((registry_get_or_create table key fresh).1.filter (fun e => e.1 == key2)).length ≤ 1) := by
  unfold registry_get_or_create
  cases hf : table.find? (fun e => e.1 == key) with
  | some e => simpa using h
  | none =>
    simp only [List.filter_append]
    by_cases hk : key = key2
    · subst hk
      have hempty : table.filter (fun e => e.1 == key) = [] := by
        rw [List.filter_eq_nil_iff]
        intro a ha
        exact List.find?_eq_none.mp hf a ha
      simp [hempty]
    · have : ((key, fresh) :: []).filter (fun e => e.1 == key2) = [] := by
        simp [hk]
      rw [List.length_append, this]
      simpa using h

/-- Releasing a key never pushes any per-key entry count above one. -/
theorem keyCount_release (table : List (String × Nat)) (key key2 : String)
    (h : (table.filter (fun e => e.1 == key2)).length ≤ 1) :
    (((registry_release table key).filter (fun e => e.1 == key2)).length ≤ 1) :=
  le_trans (List.Sublist.length_le ((List.filter_sublist table).filter _)) h

/-- The per-key singleton bound is preserved along any registry event sequence. -/
theorem run_registry_invariant (evs : List RegistryEvent) :
    ∀ table : List (String × Nat),
      (∀ k, (table.filter (fun e => e.1 == k)).length ≤ 1) →
      ∀ k, ((evs.foldl registry_step table).filter (fun e => e.1 == k)).length ≤ 1 := by
  induction evs with
  | nil => intro table h k; exact h k
  | cons ev rest ih =>
    intro table h k
    simp only [List.foldl_cons]
    refine ih (registry_step table ev) ?_ k
    intro k2
    cases ev with
    | connect key fresh => exact keyCount_get_or_create table key fresh k2 (h k2)
    | release key => exact keyCount_release table key k2 (h k2)

/-- C6: over every sequence of connect (get-or-create) and release events on a
registry table started empty (`notify_server_started`), at most one
consumer/socket-manager entry exists per key at any instant; and one
get-or-create step either attaches to the already stored instance for its key,
leaving the table unchanged, or — only when the key is absent — adds exactly
one new entry. (The source's check-then-store runs with no suspension point
between the membership test and the store, api.py lines 92-96 / 153-157 /
223-233 / 297-305, so on the single-threaded event loop each connect is one
atomic event.) -/
theorem C6_at_most_one_consumer_per_key (evs : List RegistryEvent) (key : String) :
    ((run_registry evs).filter (fun e => e.1 == key)).length ≤ 1 ∧
    (∀ table : List (String × Nat), ∀ fresh : Nat,
      (∃ e, e ∈ table ∧ e.1 = key ∧
        registry_get_or_create table key fresh = (table, e.2, false)) ∨
      ((∀ e ∈ table, e.1 ≠ key) ∧
        registry_get_or_create table key fresh = (table ++ [(key, fresh)], fresh, true))) := by
  constructor
  · exact run_registry_invariant evs [] (fun k => by simp) key
  · intro table fresh
    unfold registry_get_or_create
    cases hf : table.find? (fun e => e.1 == key) with
    | some e =>
      left
      refine ⟨e, List.mem_of_find?_eq_some hf, ?_, rfl⟩
      have := List.find?_some hf
      simpa using this
    | none =>
      right
      refine ⟨?_, rfl⟩
      intro e he
      have := List.find?_eq_none.mp hf e he
      simpa using this

/-- An erroring `job_logs` setup performed nothing: it is exactly the rejected
record (untouched table, no audit, no consumer, no socket). -/
theorem job_logs_setup_error_clean (env : Env) (req : Req) (table : List (String × Nat))
    (fresh : Nat) (e : Exc) (h : (job_logs_setup env req table fresh).error = some e) :
    job_logs_setup env req table fresh = SetupResult.rejected e table := by
  revert h
  unfold job_logs_setup
  cases hp : _get_project env req.username req.project_name with
  | error e1 =>
    intro h
    have h2 : some e1 = some e := h
    cases h2
    rfl
  | ok project =>
    dsimp only
    cases he : _get_running_experiment env project req.experiment_id with
    | error e1 =>
      intro h
      have h2 : some e1 = some e := h
      cases h2
      rfl
    | ok experiment =>
      dsimp only
      cases hj : _get_job experiment req.job_id with
      | error e1 =>
        intro h
        have h2 : some e1 = some e := h
        cases h2
        rfl
      | ok job =>
        intro h
        exact Option.noConfusion (h : (none : Option Exc) = some e)

/-- An erroring `job_resources` setup performed nothing. -/
theorem job_resources_setup_error_clean (env : Env) (req : Req) (table : List (String × Nat))
    (fresh : Nat) (e : Exc) (h : (job_resources_setup env req table fresh).error = some e) :
    job_resources_setup env req table fresh = SetupResult.rejected e table := by
  revert h
  unfold job_resources_setup
  cases hp : _get_project env req.username req.project_name with
  | error e1 =>
    intro h
    have h2 : some e1 = some e := h
    cases h2
    rfl
  | ok project =>
    dsimp only
    cases he : _get_running_experiment env project req.experiment_id with
    | error e1 =>
      intro h
      have h2 : some e1 = some e := h
      cases h2
      rfl
    | ok experiment =>
      dsimp only
      cases hj : _get_job experiment req.job_id with
      | error e1 =>
        intro h
        have h2 : some e1 = some e := h
        cases h2
        rfl
      | ok job =>
        intro h
        exact Option.noConfusion (h : (none : Option Exc) = some e)

/-- An erroring `experiment_logs` setup performed nothing. -/
theorem experiment_logs_setup_error_clean (env : Env) (req : Req)
    (table : List (String × Nat)) (fresh : Nat) (e : Exc)
    (h : (experiment_logs_setup env req table fresh).error = some e) :
    experiment_logs_setup env req table fresh = SetupResult.rejected e table := by
  revert h
  unfold experiment_logs_setup
  cases hp : _get_project env req.username req.project_name with
  | error e1 =>
    intro h
    have h2 : some e1 = some e := h
    cases h2
    rfl
  | ok project =>
    dsimp only
    cases he : _get_running_experiment env project req.experiment_id with
    | error e1 =>
      intro h
      have h2 : some e1 = some e := h
      cases h2
      rfl
    | ok experiment =>
      intro h
      exact Option.noConfusion (h : (none : Option Exc) = some e)

/-- An erroring `experiment_resources` setup performed nothing. -/
theorem experiment_resources_setup_error_clean (env : Env) (req : Req)
    (table : List (String × Nat)) (fresh : Nat) (e : Exc)
    (h : (experiment_resources_setup env req table fresh).error = some e) :
    experiment_resources_setup env req table fresh = SetupResult.rejected e table := by
  revert h
  unfold experiment_resources_setup
  cases hp : _get_project env req.username req.project_name with
  | error e1 =>
    intro h
    have h2 : some e1 = some e := h
    cases h2
    rfl
  | ok project =>
    dsimp only
    cases he : _get_running_experiment env project req.experiment_id with
    | error e1 =>
      intro h
      have h2 : some e1 = some e := h
      cases h2
      rfl
    | ok experiment =>
      intro h
      exact Option.noConfusion (h : (none : Option Exc) = some e)

/-- C8 counterexample: the rejection of a not-running resource is NOT a
distinct error class. A request for the stopped job 3 is rejected with
`exceptions.NotFound('Job was not running')` (api.py line 61) — the very same
exception class (HTTP 404 `NotFound`) used for an unknown job (here id 9,
message 'Experiment was not found', line 56); only the message string differs.
The source has no separate `ResourceNotRunning` error type. -/
theorem C8_counterexample :
    (job_logs_setup envPerm { reqJob2 with job_id := 3 } [] 100).error
      = some (Exc.notFound "Job was not running") ∧
    (job_logs_setup envPerm { reqJob2 with job_id := 9 } [] 100).error
      = some (Exc.notFound "Experiment was not found") ∧
    (job_logs_setup envPerm { reqJob2 with job_id := 3 } [] 100).error.map Exc.excClass
      = (job_logs_setup envPerm { reqJob2 with job_id := 9 } [] 100).error.map Exc.excClass :=
  ⟨rfl, rfl, rfl⟩

/-- C8 amended: a viewer requesting a live stream for a job or experiment that
exists but is not running is rejected before any audit event, consumer/manager
or registry entry is created — with `NotFound` messages 'Job was not running' /
'Experiment was not running' that differ from the unknown-resource messages but
reuse the same `NotFound` exception class as an unknown resource. -/
theorem C8_not_running_rejected_before_attach :
    (∀ (experiment : Experiment) (job_id : Nat) (job : ExperimentJob),
      experiment.jobs.find? (fun j => j.id == job_id) = some job →
      job.is_running = false →
      _get_job experiment job_id = .error (.notFound "Job was not running")) ∧
    (∀ (env : Env) (project : Project) (experiment_id : Nat) (experiment : Experiment),
      _get_experiment env project experiment_id = .ok experiment →
      experiment.is_running = false →
      _get_running_experiment env project experiment_id
        = .error (.notFound "Experiment was not running")) ∧
    (∀ (env : Env) (req : Req) (table : List (String × Nat)) (fresh : Nat) (e : Exc),
      (job_logs_setup env req table fresh).error = some e →
      job_logs_setup env req table fresh = SetupResult.rejected e table) ∧
    (∀ (env : Env) (req : Req) (table : List (String × Nat)) (fresh : Nat) (e : Exc),
      (job_resources_setup env req table fresh).error = some e →
      job_resources_setup env req table fresh = SetupResult.rejected e table) ∧
    (∀ (env : Env) (req : Req) (table : List (String × Nat)) (fresh : Nat) (e : Exc),
      (experiment_logs_setup env req table fresh).error = some e →
      experiment_logs_setup env req table fresh = SetupResult.rejected e table) ∧
    (∀ (env : Env) (req : Req) (table : List (String × Nat)) (fresh : Nat) (e : Exc),
      (experiment_resources_setup env req table fresh).error = some e →
      experiment_resources_setup env req table fresh = SetupResult.rejected e table) := by
  refine ⟨?_, ?_, job_logs_setup_error_clean, job_resources_setup_error_clean,
    experiment_logs_setup_error_clean, experiment_resources_setup_error_clean⟩
  · intro experiment job_id job hf hr
    unfold _get_job
    rw [hf]
    simp [hr]
  · intro env project experiment_id experiment he hr
    unfold _get_running_experiment
    rw [he]
    simp [hr]

/-- Witness for C8: the stopped job 3 is rejected with 'Job was not running',
and that rejecting `job_logs` setup equals the bare rejected record — untouched
table, no audit, no consumer, no socket. -/
theorem C8_not_running_rejected_before_attach_witness :
    _get_job exp10 3 = .error (.notFound "Job was not running") ∧
    job_logs_setup envPerm { reqJob2 with job_id := 3 } [] 100
      = SetupResult.rejected (Exc.notFound "Job was not running") [] :=
  ⟨C8_not_running_rejected_before_attach.1 exp10 3 job3 rfl rfl,
   C8_not_running_rejected_before_attach.2.2.1 envPerm { reqJob2 with job_id := 3 } [] 100
     (Exc.notFound "Job was not running") rfl⟩

/-- Witness for C6: after connect, a concurrent second connect, a release and a
re-connect on key `job2`, the table still holds at most one entry for it. -/
theorem C6_at_most_one_consumer_per_key_witness :
    ((run_registry [RegistryEvent.connect "job2" 5, RegistryEvent.connect "job2" 6,
        RegistryEvent.release "job2", RegistryEvent.connect "job2" 7]).filter
      (fun e => e.1 == "job2")).length ≤ 1 :=
  (C6_at_most_one_consumer_per_key
    [RegistryEvent.connect "job2" 5, RegistryEvent.connect "job2" 6,
     RegistryEvent.release "job2", RegistryEvent.connect "job2" 7] "job2").1

/-- Every executed cycle of the `experiment_resources` loop queries the job
list it was given at entry. -/
theorem experiment_resources_loop_queries (self : Nat) (jobs : List (String × String)) :
    ∀ (inputs : List ResInput) (s : ResState),
      (experiment_resources_loop self jobs s inputs).1 =
        List.replicate (experiment_resources_loop self jobs s inputs).1.length jobs := by
  intro inputs
  induction inputs with
  | nil => intro s; rfl
  | cons inp rest ih =>
    intro s
    simp only [experiment_resources_loop]
    by_cases h : (resources_stream_cycle self s inp).quit
    · simp [h]
    · simp only [h, Bool.false_eq_true, if_false, List.length_cons, List.replicate_succ,
        List.cons.injEq, true_and]
      exact ih (resources_stream_cycle self s inp).state

/-- C10: in `experiment_resources` the member-job list is resolved exactly once
per session, before the delivery loop (api.py lines 168-172), and never
re-resolved: every fetch cycle queries the job list resolved from the database
state at attach time (`dbJobs 0`), and the whole session result is unchanged by
any modification of the experiment's job set after attach (any timeline
agreeing at cycle 0 yields the identical session). -/
theorem C10_jobs_resolved_once (self : Nat) (dbJobs : Nat → List ExperimentJob)
    (s0 : ResState) (inputs : List ResInput) :
    ((experiment_resources_session self dbJobs s0 inputs).1 =
      List.replicate (experiment_resources_session self dbJobs s0 inputs).1.length
        (resolve_jobs (dbJobs 0))) ∧
    (∀ dbJobs2 : Nat → List ExperimentJob, dbJobs2 0 = dbJobs 0 →
      experiment_resources_session self dbJobs2 s0 inputs
        = experiment_resources_session self dbJobs s0 inputs) := by
  constructor
  · exact experiment_resources_loop_queries self (resolve_jobs (dbJobs 0)) inputs s0
  · intro dbJobs2 h
    unfold experiment_resources_session
    rw [h]

/-- Witness for C10: a session attached while the experiment held only `job2`;
from cycle 1 on the database also holds a running job 3, yet both idle cycles
query `[job2]` as resolved at attach time, and the grown timeline behaves
exactly like the frozen one. -/
theorem C10_jobs_resolved_once_witness :
    (experiment_resources_session 1 dbJobsGrow
        { ws := [1], should_check := 0, monitored := true, inRegistry := true }
        [resInputIdle, resInputIdle]).1
      = [[("job2", "master.2")], [("job2", "master.2")]] ∧
    experiment_resources_session 1 (fun _ => dbJobsGrow 0)
        { ws := [1], should_check := 0, monitored := true, inRegistry := true }
        [resInputIdle, resInputIdle]
      = experiment_resources_session 1 dbJobsGrow
          { ws := [1], should_check := 0, monitored := true, inRegistry := true }
          [resInputIdle, resInputIdle] :=
  ⟨((C10_jobs_resolved_once 1 dbJobsGrow
      { ws := [1], should_check := 0, monitored := true, inRegistry := true }
      [resInputIdle, resInputIdle]).1).trans (by decide),
   (C10_jobs_resolved_once 1 dbJobsGrow
      { ws := [1], should_check := 0, monitored := true, inRegistry := true }
      [resInputIdle, resInputIdle]).2 (fun _ => dbJobsGrow 0) rfl⟩

end Streams
